import Mathlib

/-!
Verification of the core pipeline of `react-native-color-thief`
(`src/color-converters.ts`): pixel sampling and filtering
(`createPixelArray`), the quantizer adapter (`quantizeColors`), the
extraction orchestrator (`getProminentColors`, `getPalette`,
`getDominantColor`, `getColorStatistics`), the configuration contract
(constructor, `updateConfig`, `resetConfig`), and the hex conversion
utilities (`rgbToHex`, `hexToRgb`).

The TypeScript code is shallowly embedded: byte buffers become `List Nat`,
JavaScript `undefined` holes become `Option`, the external collaborators
(the `quantize` library and the `color-convert` library) become explicit
function parameters, and the asynchronous pixel-source boundary becomes a
value of type `Except String (List Nat × Nat)` (either a decode failure
message or the decoded RGBA buffer with its pixel count).
-/

namespace RNColorThief

/-! ### Configuration -/

/-- Resolved configuration, mirroring `Required<ColorThiefConfig>`:
every field holds a concrete value. -/
structure Config where
  quality : Nat
  colorCount : Nat
  minAlpha : Nat
  excludeWhite : Bool
  whiteThreshold : Nat
  canvasSize : Nat
  deriving DecidableEq, Repr

/-- A field of a JavaScript object with an optional property: the property
can be absent, present but holding `undefined`, or present with a value. -/
inductive JSField (α : Type) where
  | absent : JSField α
  | undef : JSField α
  | val : α → JSField α
  deriving DecidableEq, Repr

/-- JavaScript `x ?? d`: the default is taken when the field is absent or
holds `undefined`. -/
def JSField.coalesce {α : Type} : JSField α → α → α
  | .val a, _ => a
  | _, d => d

/-- Whether a field is present but explicitly `undefined`. -/
def JSField.isUndefined {α : Type} : JSField α → Bool
  | .undef => true
  | _ => false

/-- The `ColorThiefConfig` argument object (`Partial` on update): every
property is optional. -/
structure ConfigArg where
  quality : JSField Nat
  colorCount : JSField Nat
  minAlpha : JSField Nat
  excludeWhite : JSField Bool
  whiteThreshold : JSField Nat
  canvasSize : JSField Nat
  deriving DecidableEq, Repr

/-- The default constructor argument `{}` (no property present). -/
def emptyArg : ConfigArg :=
  { quality := .absent, colorCount := .absent, minAlpha := .absent,
    excludeWhite := .absent, whiteThreshold := .absent, canvasSize := .absent }

/-- The `ReactNativeColorThief` constructor: each configuration field is
resolved with `??` against the documented default
(quality=10, colorCount=5, minAlpha=125, excludeWhite=true,
whiteThreshold=250, canvasSize=256). -/
def mkConfig (config : ConfigArg) : Config :=
  { quality := config.quality.coalesce 10
    colorCount := config.colorCount.coalesce 5
    minAlpha := config.minAlpha.coalesce 125
    excludeWhite := config.excludeWhite.coalesce true
    whiteThreshold := config.whiteThreshold.coalesce 250
    canvasSize := config.canvasSize.coalesce 256 }

/-- The configuration object as it exists at runtime: after a JavaScript
spread-merge a field can hold `undefined` (`none`) even though its
TypeScript type says `number`/`boolean`. -/
structure StoredConfig where
  quality : Option Nat
  colorCount : Option Nat
  minAlpha : Option Nat
  excludeWhite : Option Bool
  whiteThreshold : Option Nat
  canvasSize : Option Nat
  deriving DecidableEq, Repr

/-- View a resolved configuration as the runtime object (every field
defined). -/
def Config.stored (c : Config) : StoredConfig :=
  { quality := some c.quality, colorCount := some c.colorCount,
    minAlpha := some c.minAlpha, excludeWhite := some c.excludeWhite,
    whiteThreshold := some c.whiteThreshold, canvasSize := some c.canvasSize }

/-- One field of the JavaScript object spread `{...old, ...new}`: a property
present in the new object (with a value or with `undefined`) overrides the
old one; an absent property leaves the old value untouched. -/
def JSField.spreadOnto {α : Type} (old : Option α) : JSField α → Option α
  | .absent => old
  | .undef => none
  | .val a => some a

/-- `updateConfig(newConfig)`: `this.config = {...this.config, ...newConfig}`. -/
def updateConfig (c : StoredConfig) (newConfig : ConfigArg) : StoredConfig :=
  { quality := newConfig.quality.spreadOnto c.quality
    colorCount := newConfig.colorCount.spreadOnto c.colorCount
    minAlpha := newConfig.minAlpha.spreadOnto c.minAlpha
    excludeWhite := newConfig.excludeWhite.spreadOnto c.excludeWhite
    whiteThreshold := newConfig.whiteThreshold.spreadOnto c.whiteThreshold
    canvasSize := newConfig.canvasSize.spreadOnto c.canvasSize }

/-- The "no field is ever `undefined`" invariant on the runtime object. -/
def StoredConfig.allDefined (c : StoredConfig) : Bool :=
  c.quality.isSome && c.colorCount.isSome && c.minAlpha.isSome &&
  c.excludeWhite.isSome && c.whiteThreshold.isSome && c.canvasSize.isSome

/-- An argument object none of whose properties is explicitly `undefined`. -/
def ConfigArg.noUndefined (a : ConfigArg) : Bool :=
  !a.quality.isUndefined && !a.colorCount.isUndefined && !a.minAlpha.isUndefined &&
  !a.excludeWhite.isUndefined && !a.whiteThreshold.isUndefined && !a.canvasSize.isUndefined

/-- `resetConfig()`: restore the documented defaults. -/
def resetConfig : Config :=
  { quality := 10, colorCount := 5, minAlpha := 125,
    excludeWhite := true, whiteThreshold := 250, canvasSize := 256 }

/-- The default configuration, as built by `new ReactNativeColorThief()`. -/
def cfgDefault : Config := mkConfig emptyArg

/-! ### Pixel sampler (`createPixelArray`) -/

/-- JavaScript `TypedArray.prototype.slice(s, e)` on a byte sequence
(for the non-negative indices used by the sampler): elements from index
`s` (inclusive) to `e` (exclusive), clamped to the sequence length. -/
def jsSlice (l : List Nat) (s e : Nat) : List Nat :=
  (l.drop s).take (e - s)

/-- The destructuring `const [r, g, b, a] = imgData.slice(offset, offset + 4)`
at pixel index `i` (offset `i * 4`); positions past the end of the buffer
yield `undefined` (`none`). -/
def readPixel (imgData : List Nat) (i : Nat) :
    Option Nat × Option Nat × Option Nat × Option Nat :=
  ((jsSlice imgData (i * 4) (i * 4 + 4)).get? 0,
   (jsSlice imgData (i * 4) (i * 4 + 4)).get? 1,
   (jsSlice imgData (i * 4) (i * 4 + 4)).get? 2,
   (jsSlice imgData (i * 4) (i * 4 + 4)).get? 3)

/-- An `[r, g, b]` entry of the produced pixel array (components can be
`undefined` when the buffer ran out, as in the JavaScript source). -/
abbrev Sample := Option Nat × Option Nat × Option Nat

/-- The `[r, g, b]` triple pushed for a read pixel. -/
def sampleOf (p : Option Nat × Option Nat × Option Nat × Option Nat) : Sample :=
  (p.1, p.2.1, p.2.2.1)

/-- JavaScript `x > t` where `x` can be `undefined` (`undefined > t` is
false). -/
def optGtN (x : Option Nat) (t : Nat) : Bool :=
  match x with
  | none => false
  | some v => decide (t < v)

/-- The inclusion test of `createPixelArray`: the pixel is pushed when
`typeof a === "undefined" || a >= minAlpha` and
`!excludeWhite || !(r > whiteThreshold && g > whiteThreshold && b > whiteThreshold)`. -/
def passesFilter (cfg : Config) (p : Option Nat × Option Nat × Option Nat × Option Nat) :
    Bool :=
  (match p.2.2.2 with
   | none => true
   | some av => decide (cfg.minAlpha ≤ av)) &&
  (!cfg.excludeWhite ||
    !(optGtN p.1 cfg.whiteThreshold && optGtN p.2.1 cfg.whiteThreshold &&
      optGtN p.2.2.1 cfg.whiteThreshold))

/-- The sampling loop `for (let i = 0; i < pixelCount; i += quality)`,
with explicit fuel: `none` means the fuel ran out before the loop
terminated (which happens for every fuel when `quality = 0` and
`pixelCount > 0`). -/
def cpaLoop (cfg : Config) (imgData : List Nat) (pixelCount : Nat) :
    Nat → Nat → Option (List Sample)
  | fuel, i =>
    if i < pixelCount then
      match fuel with
      | 0 => none
      | fuel' + 1 =>
        match cpaLoop cfg imgData pixelCount fuel' (i + cfg.quality) with
        | none => none
        | some rest =>
          if passesFilter cfg (readPixel imgData i) then
            some (sampleOf (readPixel imgData i) :: rest)
          else
            some rest
    else
      some []

/-- `createPixelArray(imgData, pixelCount)`: run the sampling loop.  A fuel
of `pixelCount` iterations is enough whenever `quality ≥ 1`. -/
def createPixelArray (cfg : Config) (imgData : List Nat) (pixelCount : Nat) :
    Option (List Sample) :=
  cpaLoop cfg imgData pixelCount pixelCount 0

/-- What one loop iteration contributes at pixel index `i`: the `[r, g, b]`
triple when the filter passes, nothing otherwise. -/
def samplePixel (cfg : Config) (imgData : List Nat) (i : Nat) : Option Sample :=
  if passesFilter cfg (readPixel imgData i) then
    some (sampleOf (readPixel imgData i))
  else
    none

/-- The pixel indices visited by a sampling pass: `0, q, 2q, …` while
`< pixelCount`, i.e. `⌈pixelCount / q⌉` many. -/
def visitedIndices (pixelCount q : Nat) : List Nat :=
  List.range' 0 ((pixelCount + q - 1) / q) q

/-! ### Hex conversions (`rgbToHex`, `hexToRgb`) -/

/-- The RGB object `{r, g, b}` returned by `hexToRgb`. -/
structure RGB where
  r : Nat
  g : Nat
  b : Nat
  deriving DecidableEq, Repr

/-- Base-16 digit character, lowercase, as produced by
`Number.prototype.toString(16)`. -/
def hexDigitChar (n : Nat) : Char :=
  if n < 10 then Char.ofNat (48 + n) else Char.ofNat (97 + (n - 10))

/-- Fuel-driven core of `x.toString(16)`: emit base-16 digits of `n`, most
significant first (the accumulator collects digits from the right). -/
def toHexCore : Nat → Nat → List Char → List Char
  | 0, _, acc => acc
  | fuel + 1, n, acc =>
    if n / 16 = 0 then hexDigitChar (n % 16) :: acc
    else toHexCore fuel (n / 16) (hexDigitChar (n % 16) :: acc)

/-- JavaScript `x.toString(16)` for a natural number, as a character list. -/
def jsToString16 (n : Nat) : List Char :=
  toHexCore (n + 1) n []

/-- One channel of `rgbToHex`:
`const hex = x.toString(16); return hex.length === 1 ? "0" + hex : hex;`. -/
def jsHexByte (x : Nat) : List Char :=
  let hex := jsToString16 x
  if hex.length = 1 then '0' :: hex else hex

/-- `rgbToHex(r, g, b)`: zero-padded lowercase hex digits of the three
channels, joined and prefixed with `#`. -/
def rgbToHex (r g b : Nat) : String :=
  String.mk ('#' :: (jsHexByte r ++ jsHexByte g ++ jsHexByte b))

/-- A character matched by the regex class `[a-f\d]` under the `i` flag. -/
def isHexDigitCI (c : Char) : Bool :=
  ('0' ≤ c && c ≤ '9') || ('a' ≤ c && c ≤ 'f') || ('A' ≤ c && c ≤ 'F')

/-- `Number.parseInt` value of one hex digit (case-insensitive). -/
def hexVal (c : Char) : Nat :=
  if '0' ≤ c && c ≤ '9' then c.toNat - 48
  else if 'a' ≤ c && c ≤ 'f' then c.toNat - 97 + 10
  else c.toNat - 65 + 10

/-- The `#?` part of the regex `/^#?([a-f\d]{2})([a-f\d]{2})([a-f\d]{2})$/i`:
an optional leading `#` is consumed. -/
def stripHash (cs : List Char) : List Char :=
  if cs.head? = some '#' then cs.tail else cs

/-- `hexToRgb(hex)`: match
`/^#?([a-f\d]{2})([a-f\d]{2})([a-f\d]{2})$/i` and parse each two-digit
group with `Number.parseInt(_, 16)`; `null` (`none`) when the regex does
not match. -/
def hexToRgb (hex : String) : Option RGB :=
  let cs := stripHash hex.data
  if cs.length = 6 && cs.all isHexDigitCI then
    some { r := hexVal (cs.getD 0 ' ') * 16 + hexVal (cs.getD 1 ' ')
           g := hexVal (cs.getD 2 ' ') * 16 + hexVal (cs.getD 3 ' ')
           b := hexVal (cs.getD 4 ' ') * 16 + hexVal (cs.getD 5 ' ') }
  else
    none

/-! ### Formatter and orchestrator -/

/-- The formatted string representations carried by a `ColorResult`. -/
structure ColorFormats where
  hex : String
  rgb : String
  hsl : String
  keyword : String
  deriving DecidableEq, Repr

/-- A palette entry: the RGB triple, its formatted strings, and the
optional weight (always `undefined` in this pipeline). -/
structure ColorResult where
  rgb : Nat × Nat × Nat
  formats : ColorFormats
  weight : Option ℚ
  deriving DecidableEq, Repr

/-- The external `color-convert` collaborator: pure conversion functions
(`convert.rgb.hex`, `convert.rgb.hsl`, `convert.rgb.keyword`). -/
structure ConvertLib where
  rgbHex : Nat × Nat × Nat → String
  rgbHsl : Nat × Nat × Nat → List Nat
  rgbKeyword : Nat × Nat × Nat → String

/-- `formatHex(hex)`: prefix with `#` and lowercase. -/
def formatHex (hex : String) : String :=
  "#" ++ hex.toLower

/-- `rgbStringfy(r, g, b)`. -/
def rgbStringfy (r g b : Nat) : String :=
  "rgb(" ++ toString r ++ ", " ++ toString g ++ ", " ++ toString b ++ ")"

/-- `hslStringfy(hsl)` on a well-formed three-entry HSL array. -/
def hslStringfy (hsl : List Nat) : String :=
  "hsl(" ++ toString (hsl.getD 0 0) ++ ", " ++ toString (hsl.getD 1 0) ++
    "%, " ++ toString (hsl.getD 2 0) ++ "%)"

/-- `createColorResult(rgb, weight)`, with the four `formatRGB` calls at
the literal formats `hex`, `rgbString`, `hslString`, `keyword` inlined. -/
def createColorResult (lib : ConvertLib) (rgb : Nat × Nat × Nat)
    (weight : Option ℚ) : ColorResult :=
  { rgb := rgb
    formats :=
      { hex := formatHex (lib.rgbHex rgb)
        rgb := rgbStringfy rgb.1 rgb.2.1 rgb.2.2
        hsl := hslStringfy (lib.rgbHsl rgb)
        keyword := lib.rgbKeyword rgb }
    weight := weight }

/-- The external `quantize` collaborator, flattened: given the pixel array
and the requested color count it either fails (falsy color map, `none`) or
yields the palette `cmap.palette()`. -/
abbrev QuantFn := List Sample → Nat → Option (List (Nat × Nat × Nat))

/-- `quantizeColors(pixelArray)`: return `null` on an empty pixel array
without invoking the quantization algorithm, otherwise delegate. -/
def quantizeColors (Q : QuantFn) (cfg : Config) (pixelArray : List Sample) :
    Option (List (Nat × Nat × Nat)) :=
  if pixelArray.length = 0 then none
  else Q pixelArray cfg.colorCount

/-- `getProminentColors(sourceURI)` from the decoded pixel source onward:
a decode/rasterization failure is re-signaled with the
`Failed to extract colors: ` wrapper; otherwise the buffer is sampled,
quantized, and formatted, with a null or empty palette yielding `[]`.
The outer `Option` is `none` only when the sampling loop does not
terminate (`quality = 0`). -/
def getProminentColors (Q : QuantFn) (lib : ConvertLib) (cfg : Config)
    (decoded : Except String (List Nat × Nat)) :
    Option (Except String (List ColorResult)) :=
  match decoded with
  | .error msg => some (.error ("Failed to extract colors: " ++ msg))
  | .ok (buf, pixelCount) =>
    match createPixelArray cfg buf pixelCount with
    | none => none
    | some pixelArray =>
      match quantizeColors Q cfg pixelArray with
      | none => some (.ok [])
      | some palette =>
        if palette.length = 0 then some (.ok [])
        else some (.ok (palette.map (fun color => createColorResult lib color none)))

/-- `PaletteResult`. -/
structure PaletteResult where
  colors : List ColorResult
  dominant : ColorResult
  secondary : List ColorResult
  pixelCount : Nat
  deriving DecidableEq, Repr

/-- `getPalette(sourceURI)`: empty prominent colors raise
`No colors found in image`; any failure is re-wrapped with the
`Failed to get palette: ` prefix; otherwise the colors are partitioned
into dominant (first) and secondary (rest), with
`pixelCount = colors.length * quality`. -/
def getPalette (Q : QuantFn) (lib : ConvertLib) (cfg : Config)
    (decoded : Except String (List Nat × Nat)) :
    Option (Except String PaletteResult) :=
  match getProminentColors Q lib cfg decoded with
  | none => none
  | some (.error msg) => some (.error ("Failed to get palette: " ++ msg))
  | some (.ok colors) =>
    match colors with
    | [] => some (.error ("Failed to get palette: " ++ "No colors found in image"))
    | c :: rest =>
      some (.ok { colors := c :: rest, dominant := c, secondary := rest,
                  pixelCount := (c :: rest).length * cfg.quality })

/-- `getDominantColor(sourceURI)`: first prominent color, failing with
`No colors found in image` when there is none, wrapped with the
`Failed to get dominant color: ` prefix. -/
def getDominantColor (Q : QuantFn) (lib : ConvertLib) (cfg : Config)
    (decoded : Except String (List Nat × Nat)) :
    Option (Except String ColorResult) :=
  match getProminentColors Q lib cfg decoded with
  | none => none
  | some (.error msg) => some (.error ("Failed to get dominant color: " ++ msg))
  | some (.ok colors) =>
    match colors with
    | [] => some (.error ("Failed to get dominant color: " ++ "No colors found in image"))
    | c :: _ => some (.ok c)

/-- The statistics object returned by `getColorStatistics`; the
`colorDistribution` JavaScript object is modeled as a lookup function. -/
structure ColorStatistics where
  totalColors : Nat
  averageBrightness : ℚ
  colorDistribution : String → Option ℚ

/-- The `forEach` building `colorDistribution`: assign
`(N - index) / N` to each color's hex key (later assignments override). -/
def buildColorDistribution (colors : List ColorResult) : String → Option ℚ :=
  colors.enum.foldl
    (fun acc p => fun k =>
      if k = p.2.formats.hex then
        some (((colors.length : ℚ) - (p.1 : ℚ)) / (colors.length : ℚ))
      else acc k)
    (fun _ => none)

/-- `getColorStatistics(sourceURI)`: palette size, mean per-color average
brightness `(r+g+b)/3`, and the rank-based color distribution, with
failures re-wrapped with the `Failed to get color statistics: ` prefix. -/
def getColorStatistics (Q : QuantFn) (lib : ConvertLib) (cfg : Config)
    (decoded : Except String (List Nat × Nat)) :
    Option (Except String ColorStatistics) :=
  match getPalette Q lib cfg decoded with
  | none => none
  | some (.error msg) => some (.error ("Failed to get color statistics: " ++ msg))
  | some (.ok palette) =>
    some (.ok
      { totalColors := palette.colors.length
        averageBrightness :=
          (palette.colors.foldl
            (fun sum color =>
              sum + ((color.rgb.1 : ℚ) + (color.rgb.2.1 : ℚ) + (color.rgb.2.2 : ℚ)) / 3)
            0) / (palette.colors.length : ℚ)
        colorDistribution := buildColorDistribution palette.colors })

/-! ### Sampler lemmas -/

/-- With `quality ≥ 1` and enough fuel, the sampling loop started at `i`
produces exactly the filtered samples of the indices
`i, i+q, i+2q, …` below `pixelCount`. -/
theorem cpaLoop_eq (cfg : Config) (buf : List Nat) (pc : Nat)
    (hq : 1 ≤ cfg.quality) :
    ∀ fuel i, pc ≤ i + fuel * cfg.quality →
      cpaLoop cfg buf pc fuel i =
        some ((List.range' i ((pc - i + cfg.quality - 1) / cfg.quality)
            cfg.quality).filterMap (samplePixel cfg buf)) := by
  intro fuel
  induction fuel with
  | zero =>
    intro i h
    have hi : ¬ i < pc := by omega
    have h0 : pc - i + cfg.quality - 1 = cfg.quality - 1 := by omega
    rw [cpaLoop]
    simp [hi, h0, Nat.div_eq_of_lt (show cfg.quality - 1 < cfg.quality by omega)]
  | succ fuel ih =>
    intro i h
    rw [Nat.succ_mul] at h
    by_cases hi : i < pc
    · have hrec := ih (i + cfg.quality) (by omega)
      have hm : (pc - (i + cfg.quality) + cfg.quality - 1) / cfg.quality + 1 =
          (pc - i + cfg.quality - 1) / cfg.quality := by
        rcases le_or_lt pc (i + cfg.quality) with hle | hlt
        · have h1 : pc - (i + cfg.quality) + cfg.quality - 1 = cfg.quality - 1 := by
            omega
          have h2 : pc - i + cfg.quality - 1 = (pc - i - 1) + cfg.quality := by omega
          rw [h1, h2, Nat.div_eq_of_lt (show cfg.quality - 1 < cfg.quality by omega),
            Nat.add_div_right _ (by omega),
            Nat.div_eq_of_lt (show pc - i - 1 < cfg.quality by omega)]
        · have h1 : pc - (i + cfg.quality) + cfg.quality - 1 = pc - i - 1 := by omega
          have h2 : pc - i + cfg.quality - 1 = (pc - i - 1) + cfg.quality := by omega
          rw [h1, h2, Nat.add_div_right _ (by omega)]
      rw [cpaLoop]
      simp only [hi, if_true, hrec]
      rw [← hm]
      have hr : List.range' i ((pc - (i + cfg.quality) + cfg.quality - 1) /
          cfg.quality + 1) cfg.quality =
          i :: List.range' (i + cfg.quality)
            ((pc - (i + cfg.quality) + cfg.quality - 1) / cfg.quality) cfg.quality := rfl
      rw [hr, List.filterMap_cons]
      by_cases hp : passesFilter cfg (readPixel buf i)
      · simp [samplePixel, hp]
      · simp [samplePixel, hp]
    · have h0 : pc - i + cfg.quality - 1 = cfg.quality - 1 := by omega
      rw [cpaLoop]
      simp [hi, h0, Nat.div_eq_of_lt (show cfg.quality - 1 < cfg.quality by omega)]

/-- Closed form of `createPixelArray` for `quality ≥ 1`: the loop
terminates and yields the filtered samples of the visited indices. -/
theorem createPixelArray_eq (cfg : Config) (buf : List Nat) (pc : Nat)
    (hq : 1 ≤ cfg.quality) :
    createPixelArray cfg buf pc =
      some ((visitedIndices pc cfg.quality).filterMap (samplePixel cfg buf)) := by
  have h := cpaLoop_eq cfg buf pc hq pc 0 (by
    have := Nat.le_mul_of_pos_right pc (show 0 < cfg.quality by omega)
    omega)
  rw [createPixelArray, h]
  simp [visitedIndices]

/-- With `quality = 0` and at least one pixel, no amount of fuel makes the
sampling loop terminate: the loop counter never advances. -/
theorem cpaLoop_quality_zero (cfg : Config) (buf : List Nat) (pc : Nat)
    (h0 : cfg.quality = 0) (hpc : 0 < pc) :
    ∀ fuel, cpaLoop cfg buf pc fuel 0 = none := by
  intro fuel
  induction fuel with
  | zero => rw [cpaLoop]; simp [hpc]
  | succ fuel ih =>
    rw [cpaLoop]
    simp only [hpc, if_true]
    rw [h0]
    simp [ih]

/-- Characterization of the visited-index count as a ceiling:
`k < ⌈pc/q⌉` exactly when the `k`-th visited index `k*q` is below `pc`. -/
theorem lt_ceilDiv_iff (pc q : Nat) (hq : 0 < q) (k : Nat) :
    k < (pc + q - 1) / q ↔ k * q < pc := by
  constructor
  · intro h
    have h1 : k + 1 ≤ (pc + q - 1) / q := h
    rw [Nat.le_div_iff_mul_le hq] at h1
    rw [Nat.succ_mul] at h1
    omega
  · intro h
    have h1 : (k + 1) * q ≤ pc + q - 1 := by rw [Nat.succ_mul]; omega
    have h2 := (Nat.le_div_iff_mul_le hq).mpr h1
    omega

/-- The visited-index list of a sampling pass has length `⌈pc/q⌉` and
consists exactly of the multiples of `q` below `pc`. -/
theorem visitedIndices_spec (pc q : Nat) (hq : 1 ≤ q) :
    (visitedIndices pc q).length = (pc + q - 1) / q ∧
    (∀ i, i ∈ visitedIndices pc q ↔ ∃ k, i = k * q ∧ i < pc) := by
  constructor
  · simp [visitedIndices]
  · intro i
    rw [visitedIndices, List.mem_range']
    constructor
    · rintro ⟨k, hk, rfl⟩
      refine ⟨k, by ring, ?_⟩
      have h1 := (lt_ceilDiv_iff pc q (by omega) k).mp hk
      have h2 : q * k = k * q := Nat.mul_comm q k
      omega
    · rintro ⟨k, rfl, hlt⟩
      exact ⟨k, (lt_ceilDiv_iff pc q (by omega) k).mpr hlt, by ring⟩

/-- The alpha byte of a read pixel is `undefined` exactly when the buffer
provides no fourth byte at that position. -/
theorem readPixel_alpha_none (buf : List Nat) (i : Nat) :
    (readPixel buf i).2.2.2 = none ↔ buf.length < i * 4 + 4 := by
  simp only [readPixel, jsSlice]
  rw [List.get?_eq_none]
  simp only [List.length_take, List.length_drop]
  omega

/-- Filter semantics for a pixel with all four bytes present: kept iff the
alpha is not below `minAlpha` and, when `excludeWhite` is set, not all
three channels strictly exceed `whiteThreshold`. -/
theorem passesFilter_some_iff (cfg : Config) (r g b a : Nat) :
    passesFilter cfg (some r, some g, some b, some a) = true ↔
      ¬ a < cfg.minAlpha ∧
        (cfg.excludeWhite = true →
          ¬ (cfg.whiteThreshold < r ∧ cfg.whiteThreshold < g ∧
              cfg.whiteThreshold < b)) := by
  cases hw : cfg.excludeWhite
  · simp [passesFilter, optGtN, hw, Nat.not_lt, and_assoc]
  · simp [passesFilter, optGtN, hw, Nat.not_lt, and_assoc]
    omega

/-- Filter semantics for a pixel with no alpha byte: the pixel is treated
as fully opaque (the alpha test is skipped) and only the white-exclusion
test applies. -/
theorem passesFilter_noAlpha_iff (cfg : Config) (r g b : Nat) :
    passesFilter cfg (some r, some g, some b, none) = true ↔
      (cfg.excludeWhite = true →
        ¬ (cfg.whiteThreshold < r ∧ cfg.whiteThreshold < g ∧
            cfg.whiteThreshold < b)) := by
  cases hw : cfg.excludeWhite
  · simp [passesFilter, optGtN, hw, Nat.not_lt, and_assoc]
  · simp [passesFilter, optGtN, hw, Nat.not_lt, and_assoc]
    omega

/-- C1: a pixel visited by the sampler is appended to the output sample
list as `[r, g, b]` if and only if it passes the filter: a pixel with no
alpha byte is treated as fully opaque and only the white test applies;
otherwise the pixel is discarded exactly when `a < minAlpha`; and when
`excludeWhite` is true the pixel is additionally discarded exactly when
all of `r`, `g`, `b` strictly exceed `whiteThreshold` — so with the
default threshold 250 the pixel (254,254,254) is excluded while
(250,250,250) is not. -/
theorem claim1_sampler_filter :
    (∀ (cfg : Config) (buf : List Nat) (pc : Nat), 1 ≤ cfg.quality →
        createPixelArray cfg buf pc =
          some ((visitedIndices pc cfg.quality).filterMap (samplePixel cfg buf))) ∧
    (∀ (cfg : Config) (r g b a : Nat),
        passesFilter cfg (some r, some g, some b, some a) = true ↔
          ¬ a < cfg.minAlpha ∧
            (cfg.excludeWhite = true →
              ¬ (cfg.whiteThreshold < r ∧ cfg.whiteThreshold < g ∧
                  cfg.whiteThreshold < b))) ∧
    (∀ (cfg : Config) (r g b : Nat),
        passesFilter cfg (some r, some g, some b, none) = true ↔
          (cfg.excludeWhite = true →
            ¬ (cfg.whiteThreshold < r ∧ cfg.whiteThreshold < g ∧
                cfg.whiteThreshold < b))) ∧
    (∀ (buf : List Nat) (i : Nat),
        (readPixel buf i).2.2.2 = none ↔ buf.length < i * 4 + 4) ∧
    passesFilter cfgDefault (some 254, some 254, some 254, some 255) = false ∧
    passesFilter cfgDefault (some 250, some 250, some 250, some 255) = true :=
  ⟨createPixelArray_eq, passesFilter_some_iff, passesFilter_noAlpha_iff,
   readPixel_alpha_none, by decide, by decide⟩

/-- C2: for `quality = q ≥ 1`, a sampling pass over `pixelCount` pixels
visits exactly `⌈pixelCount / q⌉` indices (the multiples of `q` below
`pixelCount`, and `⌈pixelCount / q⌉ = (pixelCount + q - 1) / q` is the
least `n` with `pixelCount ≤ n * q`), and every visited pixel is read at
byte offset `visited_index * 4`. -/
theorem claim2_visit_count :
    ∀ (cfg : Config) (buf : List Nat) (pc : Nat), 1 ≤ cfg.quality →
      createPixelArray cfg buf pc =
        some ((visitedIndices pc cfg.quality).filterMap (samplePixel cfg buf)) ∧
      (visitedIndices pc cfg.quality).length = (pc + cfg.quality - 1) / cfg.quality ∧
      pc ≤ (visitedIndices pc cfg.quality).length * cfg.quality ∧
      (∀ n, pc ≤ n * cfg.quality → (visitedIndices pc cfg.quality).length ≤ n) ∧
      (∀ i, i ∈ visitedIndices pc cfg.quality ↔
        ∃ k, i = k * cfg.quality ∧ i < pc) ∧
      (∀ i, readPixel buf i =
        ((jsSlice buf (i * 4) (i * 4 + 4)).get? 0,
         (jsSlice buf (i * 4) (i * 4 + 4)).get? 1,
         (jsSlice buf (i * 4) (i * 4 + 4)).get? 2,
         (jsSlice buf (i * 4) (i * 4 + 4)).get? 3)) := by
  intro cfg buf pc hq
  obtain ⟨hlen, hmem⟩ := visitedIndices_spec pc cfg.quality hq
  refine ⟨createPixelArray_eq cfg buf pc hq, hlen, ?_, ?_, hmem, fun i => rfl⟩
  · rw [hlen]
    have h := Nat.div_add_mod (pc + cfg.quality - 1) cfg.quality
    have hm : (pc + cfg.quality - 1) % cfg.quality < cfg.quality :=
      Nat.mod_lt _ (by omega)
    have hc : cfg.quality * ((pc + cfg.quality - 1) / cfg.quality) =
        ((pc + cfg.quality - 1) / cfg.quality) * cfg.quality :=
      Nat.mul_comm _ _
    omega
  · intro n hn
    rw [hlen]
    have h := lt_ceilDiv_iff pc cfg.quality (by omega) n
    omega

/-- C3: the empty-input path is a non-error: sampling an empty buffer (of
zero pixels) yields an empty sample list; `quantizeColors` on an empty
sample list returns `null` without invoking the underlying quantization
algorithm (the result does not depend on it); and `getProminentColors` on
a source whose quantization yields `null` or an empty palette returns
`[]` rather than an error. -/
theorem claim3_empty_path :
    (∀ cfg : Config, createPixelArray cfg [] 0 = some []) ∧
    (∀ (Q : QuantFn) (cfg : Config), quantizeColors Q cfg [] = none) ∧
    (∀ (Q Q' : QuantFn) (cfg : Config),
        quantizeColors Q cfg [] = quantizeColors Q' cfg []) ∧
    (∀ (Q : QuantFn) (lib : ConvertLib) (cfg : Config) (buf : List Nat)
        (pc : Nat) (pixelArray : List Sample),
        createPixelArray cfg buf pc = some pixelArray →
        (quantizeColors Q cfg pixelArray = none ∨
          quantizeColors Q cfg pixelArray = some []) →
        getProminentColors Q lib cfg (.ok (buf, pc)) = some (.ok [])) := by
  refine ⟨fun cfg => rfl, fun Q cfg => rfl, fun Q Q' cfg => rfl, ?_⟩
  intro Q lib cfg buf pc pixelArray hpa hq
  rw [getProminentColors, hpa]
  rcases hq with hq | hq <;> simp [hq]

/-- C10: the sampling pass terminates for every `quality ≥ 1` (its loop
counter strictly increases by `quality` until it reaches `pixelCount`),
and the precondition `quality ≥ 1` is required: with `quality = 0` and
`pixelCount > 0` the loop counter never advances, and no amount of fuel
makes the loop terminate. -/
theorem claim10_sampler_termination :
    (∀ (cfg : Config) (buf : List Nat) (pc : Nat), 1 ≤ cfg.quality →
        (createPixelArray cfg buf pc).isSome = true) ∧
    (∀ (cfg : Config) (buf : List Nat) (pc : Nat), cfg.quality = 0 → 0 < pc →
        ∀ fuel, cpaLoop cfg buf pc fuel 0 = none) := by
  constructor
  · intro cfg buf pc hq
    rw [createPixelArray_eq cfg buf pc hq]
    rfl
  · exact cpaLoop_quality_zero

/-! ### Orchestrator lemmas -/

/-- Elimination principle for a successful `getPalette` call: the colors
are non-empty, the dominant/secondary partition is head/tail, the
reported `pixelCount` is `colors.length * quality`, and the colors are
the ones returned by `getProminentColors`. -/
theorem getPalette_ok_elim (Q : QuantFn) (lib : ConvertLib) (cfg : Config)
    (decoded : Except String (List Nat × Nat)) (pr : PaletteResult)
    (h : getPalette Q lib cfg decoded = some (.ok pr)) :
    ∃ c rest, pr.colors = c :: rest ∧ pr.dominant = c ∧ pr.secondary = rest ∧
      pr.pixelCount = pr.colors.length * cfg.quality ∧
      getProminentColors Q lib cfg decoded = some (.ok pr.colors) := by
  rw [getPalette] at h
  rcases hg : getProminentColors Q lib cfg decoded with _ | res
  · rw [hg] at h; exact absurd h (by simp)
  · rw [hg] at h
    rcases res with msg | colors
    · exact absurd h (by simp)
    · rcases colors with _ | ⟨c, rest⟩
      · exact absurd h (by simp)
      · have hpr : pr =
            { colors := c :: rest, dominant := c, secondary := rest,
              pixelCount := (c :: rest).length * cfg.quality } := by
          simp only [Option.some.injEq, Except.ok.injEq] at h
          exact h.symm
        subst hpr
        exact ⟨c, rest, rfl, rfl, rfl, rfl, rfl⟩

/-- C4: on every source on which `getProminentColors` returns an empty
list, `getPalette` and `getDominantColor` each fail with the
`No colors found in image` error (surfaced inside the per-operation
failure wrapper, so the message carries `No colors found in image`);
and `getPalette` never returns a `PaletteResult` with an empty `colors`
array. -/
theorem claim4_empty_result_error :
    ∀ (Q : QuantFn) (lib : ConvertLib) (cfg : Config)
      (decoded : Except String (List Nat × Nat)),
      (getProminentColors Q lib cfg decoded = some (.ok []) →
        getPalette Q lib cfg decoded =
          some (.error ("Failed to get palette: " ++ "No colors found in image")) ∧
        getDominantColor Q lib cfg decoded =
          some (.error ("Failed to get dominant color: " ++ "No colors found in image")) ∧
        (∃ p₁, "Failed to get palette: " ++ "No colors found in image" =
            p₁ ++ "No colors found in image") ∧
        (∃ p₂, "Failed to get dominant color: " ++ "No colors found in image" =
            p₂ ++ "No colors found in image")) ∧
      (∀ pr, getPalette Q lib cfg decoded = some (.ok pr) → pr.colors ≠ []) := by
  intro Q lib cfg decoded
  constructor
  · intro h
    refine ⟨?_, ?_, ⟨"Failed to get palette: ", rfl⟩,
      ⟨"Failed to get dominant color: ", rfl⟩⟩
    · rw [getPalette, h]
    · rw [getDominantColor, h]
  · intro pr h
    obtain ⟨c, rest, hc, -⟩ := getPalette_ok_elim Q lib cfg decoded pr h
    simp [hc]

/-- C5: every successful `getPalette` result satisfies
`dominant = colors[0]`, `secondary = colors.slice(1)`, and
`pixelCount = colors.length * quality`, where `colors` is the non-empty
list returned by `getProminentColors`. -/
theorem claim5_palette_shape :
    ∀ (Q : QuantFn) (lib : ConvertLib) (cfg : Config)
      (decoded : Except String (List Nat × Nat)) (pr : PaletteResult),
      getPalette Q lib cfg decoded = some (.ok pr) →
      ∃ c rest, pr.colors = c :: rest ∧ pr.dominant = c ∧ pr.secondary = rest ∧
        pr.pixelCount = pr.colors.length * cfg.quality ∧
        getProminentColors Q lib cfg decoded = some (.ok pr.colors) :=
  getPalette_ok_elim

/-! ### Statistics lemmas -/

/-- A left fold that adds `f` of each element equals the initial value
plus the sum of the mapped list. -/
theorem foldl_add_eq_sum (f : ColorResult → ℚ) :
    ∀ (l : List ColorResult) (init : ℚ),
      l.foldl (fun sum c => sum + f c) init = init + (l.map f).sum := by
  intro l
  induction l with
  | nil => intro init; simp
  | cons c t ih =>
    intro init
    simp only [List.foldl_cons, List.map_cons, List.sum_cons, ih]
    ring

/-- Folding the distribution-building step over pairs none of whose hex
keys is `k` leaves the map unchanged at `k`. -/
theorem distFoldl_not_mem (w : Nat → ℚ) (l : List (Nat × ColorResult))
    (m : String → Option ℚ) (k : String)
    (h : ∀ p ∈ l, p.2.formats.hex ≠ k) :
    l.foldl (fun acc p => fun s =>
        if s = p.2.formats.hex then some (w p.1) else acc s) m k = m k := by
  induction l generalizing m with
  | nil => rfl
  | cons p t ih =>
    simp only [List.foldl_cons]
    rw [ih _ (fun q hq => h q (List.mem_cons_of_mem p hq))]
    show (if k = p.2.formats.hex then some (w p.1) else m k) = m k
    exact if_neg (fun hk => h p (List.mem_cons_self p t) hk.symm)

/-- When the hex keys of the pairs are pairwise distinct, the built
distribution maps the hex of the pair `(i, c)` to its weight `w i`. -/
theorem distFoldl_mem (w : Nat → ℚ) (l : List (Nat × ColorResult))
    (m : String → Option ℚ) (i : Nat) (c : ColorResult)
    (hmem : (i, c) ∈ l)
    (hnd : (l.map (fun p => p.2.formats.hex)).Nodup) :
    l.foldl (fun acc p => fun s =>
        if s = p.2.formats.hex then some (w p.1) else acc s) m
      c.formats.hex = some (w i) := by
  induction l generalizing m with
  | nil => exact absurd hmem (List.not_mem_nil _)
  | cons p t ih =>
    simp only [List.map_cons, List.nodup_cons] at hnd
    obtain ⟨hph, hnd'⟩ := hnd
    simp only [List.foldl_cons]
    rcases List.mem_cons.mp hmem with heq | hmem'
    · subst heq
      rw [distFoldl_not_mem]
      · simp
      · intro q hq hqk
        exact hph (List.mem_map.mpr ⟨q, hq, hqk⟩)
    · exact ih _ hmem' hnd'

/-- C9: every successful `getColorStatistics` result over a palette of
`N ≥ 1` colors has `averageBrightness` equal to the mean over the palette
of `(r+g+b)/3`, `totalColors = N`, and (when the hex keys are pairwise
distinct, as a key can hold only one weight) `colorDistribution` maps the
hex string of the color at 0-based position `i` to `(N - i) / N`. -/
theorem claim9_statistics :
    ∀ (Q : QuantFn) (lib : ConvertLib) (cfg : Config)
      (decoded : Except String (List Nat × Nat)) (pr : PaletteResult),
      getPalette Q lib cfg decoded = some (.ok pr) →
      ∃ stats, getColorStatistics Q lib cfg decoded = some (.ok stats) ∧
        stats.totalColors = pr.colors.length ∧
        1 ≤ pr.colors.length ∧
        stats.averageBrightness =
          ((pr.colors.map (fun c =>
              ((c.rgb.1 : ℚ) + (c.rgb.2.1 : ℚ) + (c.rgb.2.2 : ℚ)) / 3)).sum) /
            (pr.colors.length : ℚ) ∧
        ((pr.colors.map (fun c => c.formats.hex)).Nodup →
          ∀ i (hi : i < pr.colors.length),
            stats.colorDistribution ((pr.colors.get ⟨i, hi⟩).formats.hex) =
              some (((pr.colors.length : ℚ) - (i : ℚ)) / (pr.colors.length : ℚ))) := by
  intro Q lib cfg decoded pr h
  obtain ⟨c, rest, hc, -⟩ := getPalette_ok_elim Q lib cfg decoded pr h
  refine ⟨_, by rw [getColorStatistics, h], rfl, by rw [hc]; simp, ?_, ?_⟩
  · show (pr.colors.foldl (fun sum color =>
        sum + ((color.rgb.1 : ℚ) + (color.rgb.2.1 : ℚ) + (color.rgb.2.2 : ℚ)) / 3)
        0) / (pr.colors.length : ℚ) = _
    rw [foldl_add_eq_sum (fun c =>
      ((c.rgb.1 : ℚ) + (c.rgb.2.1 : ℚ) + (c.rgb.2.2 : ℚ)) / 3) pr.colors 0]
    rw [zero_add]
  · intro hnd i hi
    show buildColorDistribution pr.colors _ = _
    rw [buildColorDistribution]
    have hmem : (i, pr.colors.get ⟨i, hi⟩) ∈ pr.colors.enum :=
      List.mk_mem_enum_iff_getElem?.mpr (by
        simp [List.getElem?_eq_getElem hi, List.get_eq_getElem])
    have hnd' : (pr.colors.enum.map (fun p => p.2.formats.hex)).Nodup := by
      have h1 : pr.colors.enum.map (fun p => p.2.formats.hex) =
          (pr.colors.enum.map Prod.snd).map (fun c => c.formats.hex) := by
        rw [List.map_map]; rfl
      rw [h1, List.enum_map_snd]
      exact hnd
    exact distFoldl_mem
      (fun idx => ((pr.colors.length : ℚ) - (idx : ℚ)) / (pr.colors.length : ℚ))
      pr.colors.enum (fun _ => none) i (pr.colors.get ⟨i, hi⟩) hmem hnd'

/-! ### Hex lemmas -/

/-- Every base-16 digit character is matched by `[a-f\\d]` (case
insensitively) and parses back to its value. -/
theorem hexDigitChar_spec :
    ∀ d, d < 16 → isHexDigitCI (hexDigitChar d) = true ∧
      hexVal (hexDigitChar d) = d := by decide

/-- `x.toString(16)` of a single digit. -/
theorem jsToString16_lt (x : Nat) (h : x < 16) :
    jsToString16 x = [hexDigitChar x] := by
  rw [jsToString16, toHexCore, if_pos (Nat.div_eq_of_lt h),
    Nat.mod_eq_of_lt h]

/-- `x.toString(16)` of a two-digit byte value. -/
theorem jsToString16_two (x : Nat) (h1 : 16 ≤ x) (h2 : x ≤ 255) :
    jsToString16 x = [hexDigitChar (x / 16), hexDigitChar (x % 16)] := by
  have hx0 : ¬ x / 16 = 0 := by
    have := (Nat.one_le_div_iff (show 0 < 16 by omega)).mpr h1
    omega
  have hlt : x / 16 < 16 := by
    rw [Nat.div_lt_iff_lt_mul (show 0 < 16 by omega)]
    omega
  have hdd : x / 16 / 16 = 0 := Nat.div_eq_of_lt hlt
  have hmod : x / 16 % 16 = x / 16 := Nat.mod_eq_of_lt hlt
  rw [jsToString16, toHexCore, if_neg hx0]
  obtain ⟨y, rfl⟩ : ∃ y, x = y + 1 := ⟨x - 1, by omega⟩
  rw [toHexCore, if_pos hdd, hmod]

/-- For a byte value, `jsHexByte` produces exactly two hex-digit
characters whose parsed value recomposes the byte. -/
theorem jsHexByte_pair (x : Nat) (h : x ≤ 255) :
    ∃ c₁ c₂, jsHexByte x = [c₁, c₂] ∧ isHexDigitCI c₁ = true ∧
      isHexDigitCI c₂ = true ∧ hexVal c₁ * 16 + hexVal c₂ = x := by
  by_cases hx : x < 16
  · refine ⟨'0', hexDigitChar x, ?_, by decide, (hexDigitChar_spec x hx).1, ?_⟩
    · rw [jsHexByte, jsToString16_lt x hx]
      simp
    · rw [(hexDigitChar_spec x hx).2]
      have h0 : hexVal '0' = 0 := by decide
      rw [h0]
      omega
  · have h16 : 16 ≤ x := by omega
    have hlt : x / 16 < 16 := by
      rw [Nat.div_lt_iff_lt_mul (show 0 < 16 by omega)]
      omega
    have hm : x % 16 < 16 := Nat.mod_lt _ (by omega)
    refine ⟨hexDigitChar (x / 16), hexDigitChar (x % 16), ?_,
      (hexDigitChar_spec _ hlt).1, (hexDigitChar_spec _ hm).1, ?_⟩
    · rw [jsHexByte, jsToString16_two x h16 h]
      simp
    · rw [(hexDigitChar_spec _ hlt).2, (hexDigitChar_spec _ hm).2]
      have := Nat.div_add_mod x 16
      have hc : 16 * (x / 16) = (x / 16) * 16 := Nat.mul_comm _ _
      omega

/-- C7: for all channels in [0,255], `hexToRgb` inverts `rgbToHex`, and
`rgbToHex` zero-pads each channel to two lowercase hex digits. -/
theorem claim7_hex_roundtrip :
    (∀ r g b : Nat, r ≤ 255 → g ≤ 255 → b ≤ 255 →
        hexToRgb (rgbToHex r g b) = some { r := r, g := g, b := b }) ∧
    rgbToHex 1 2 3 = "#010203" ∧
    rgbToHex 255 255 255 = "#ffffff" ∧
    rgbToHex 0 0 0 = "#000000" := by
  refine ⟨?_, by decide, by decide, by decide⟩
  intro r g b hr hg hb
  obtain ⟨r₁, r₂, hrE, hr1, hr2, hrV⟩ := jsHexByte_pair r hr
  obtain ⟨g₁, g₂, hgE, hg1, hg2, hgV⟩ := jsHexByte_pair g hg
  obtain ⟨b₁, b₂, hbE, hb1, hb2, hbV⟩ := jsHexByte_pair b hb
  rw [rgbToHex, hrE, hgE, hbE, hexToRgb]
  have hstrip : stripHash (String.mk
      ('#' :: ([r₁, r₂] ++ [g₁, g₂] ++ [b₁, b₂]))).data =
      [r₁, r₂, g₁, g₂, b₁, b₂] := by
    rw [stripHash]
    rfl
  rw [hstrip]
  have hcond : ([r₁, r₂, g₁, g₂, b₁, b₂].length = 6 &&
      [r₁, r₂, g₁, g₂, b₁, b₂].all isHexDigitCI) = true := by
    simp [hr1, hr2, hg1, hg2, hb1, hb2]
  rw [if_pos hcond]
  simp only [List.getD]
  norm_num [hrV, hgV, hbV]

/-- C8: `hexToRgb` returns `null` exactly on the inputs that are not an
optional `#` followed by six hex digits; in particular on `"#invalid"`,
on the three-digit shorthand `"#fff"`, and on `""`. -/
theorem claim8_hexToRgb_rejects :
    hexToRgb "#invalid" = none ∧ hexToRgb "#fff" = none ∧ hexToRgb "" = none ∧
    (∀ s : String, (hexToRgb s).isSome = true ↔
      ∃ cs : List Char, cs.length = 6 ∧ (∀ c ∈ cs, isHexDigitCI c = true) ∧
        (s.data = cs ∨ s.data = '#' :: cs)) := by
  refine ⟨by decide, by decide, by decide, ?_⟩
  intro s
  constructor
  · intro h
    rw [hexToRgb] at h
    by_cases hcond : ((stripHash s.data).length = 6 &&
        (stripHash s.data).all isHexDigitCI) = true
    · have hlen : (stripHash s.data).length = 6 := by
        simpa using (Bool.and_eq_true _ _ |>.mp hcond).1
      have hall : ∀ c ∈ stripHash s.data, isHexDigitCI c = true :=
        List.all_eq_true.mp (Bool.and_eq_true _ _ |>.mp hcond).2
      refine ⟨stripHash s.data, hlen, hall, ?_⟩
      by_cases hh : s.data.head? = some '#'
      · right
        rcases hd : s.data with _ | ⟨c, t⟩
        · rw [hd] at hh
          exact absurd hh (by simp)
        · rw [hd] at hh
          simp only [List.head?_cons, Option.some.injEq] at hh
          subst hh
          rw [stripHash]
          simp
      · left
        rw [stripHash, if_neg hh]
    · rw [if_neg hcond] at h
      exact absurd h (by simp)
  · rintro ⟨cs, hlen, hmem, hcs | hcs⟩
    · have hstrip : stripHash s.data = cs := by
        rcases hc : cs with _ | ⟨c, t⟩
        · rw [hc] at hlen
          simp at hlen
        · have hcne : c ≠ '#' := by
            intro he
            have := hmem c (hc ▸ List.mem_cons_self c t)
            rw [he] at this
            exact absurd this (by decide)
          rw [hcs, hc, stripHash, if_neg (by simp [hcne])]
      rw [hexToRgb, hstrip,
        if_pos (by simp [hlen, List.all_eq_true.mpr hmem])]
      rfl
    · have hstrip : stripHash s.data = cs := by
        rw [hcs, stripHash]
        simp
      rw [hexToRgb, hstrip,
        if_pos (by simp [hlen, List.all_eq_true.mpr hmem])]
      rfl

/-! ### Configuration lemmas -/

/-- Spreading a non-`undefined` field onto a defined value keeps it
defined. -/
theorem spreadOnto_isSome {α : Type} (old : Option α) (f : JSField α)
    (h1 : old.isSome = true) (h2 : f.isUndefined = false) :
    (f.spreadOnto old).isSome = true := by
  cases f <;> simp_all [JSField.spreadOnto, JSField.isUndefined]

/-- C6 counterexample: `updateConfig` is a JavaScript object spread, so an
update whose `quality` property is present but explicitly `undefined`
(allowed by `Partial<ColorThiefConfig>`) leaves the configuration with
`quality === undefined`, violating the claimed no-field-is-undefined
invariant. -/
theorem claim6_undef_counterexample :
    (updateConfig (mkConfig emptyArg).stored
        { emptyArg with quality := JSField.undef }).quality = none ∧
    (updateConfig (mkConfig emptyArg).stored
        { emptyArg with quality := JSField.undef }).allDefined = false :=
  ⟨rfl, rfl⟩

/-- C6 (amended): after construction every configuration field holds a
concrete value, with absent constructor fields resolved to the defaults
quality=10, colorCount=5, minAlpha=125, excludeWhite=true,
whiteThreshold=250, canvasSize=256; `updateConfig` shallow-merges the
provided fields over the current configuration leaving absent fields
untouched; and the no-field-is-undefined invariant holds after
construction, after `resetConfig`, and after every `updateConfig` whose
provided fields all carry concrete (non-`undefined`) values. -/
theorem claim6_config_amended :
    mkConfig emptyArg =
      { quality := 10, colorCount := 5, minAlpha := 125,
        excludeWhite := true, whiteThreshold := 250, canvasSize := 256 } ∧
    (∀ a : ConfigArg, (mkConfig a).stored.allDefined = true) ∧
    (∀ (a : ConfigArg) (v : Nat), a.quality = .val v → (mkConfig a).quality = v) ∧
    (∀ a : ConfigArg, a.quality = .absent → (mkConfig a).quality = 10) ∧
    (∀ (a : ConfigArg) (v : Nat), a.colorCount = .val v → (mkConfig a).colorCount = v) ∧
    (∀ a : ConfigArg, a.colorCount = .absent → (mkConfig a).colorCount = 5) ∧
    (∀ (a : ConfigArg) (v : Nat), a.minAlpha = .val v → (mkConfig a).minAlpha = v) ∧
    (∀ a : ConfigArg, a.minAlpha = .absent → (mkConfig a).minAlpha = 125) ∧
    (∀ (a : ConfigArg) (v : Bool), a.excludeWhite = .val v → (mkConfig a).excludeWhite = v) ∧
    (∀ a : ConfigArg, a.excludeWhite = .absent → (mkConfig a).excludeWhite = true) ∧
    (∀ (a : ConfigArg) (v : Nat), a.whiteThreshold = .val v → (mkConfig a).whiteThreshold = v) ∧
    (∀ a : ConfigArg, a.whiteThreshold = .absent → (mkConfig a).whiteThreshold = 250) ∧
    (∀ (a : ConfigArg) (v : Nat), a.canvasSize = .val v → (mkConfig a).canvasSize = v) ∧
    (∀ a : ConfigArg, a.canvasSize = .absent → (mkConfig a).canvasSize = 256) ∧
    (∀ (c : StoredConfig) (a : ConfigArg),
      (a.quality = .absent → (updateConfig c a).quality = c.quality) ∧
      (∀ v, a.quality = .val v → (updateConfig c a).quality = some v) ∧
      (a.colorCount = .absent → (updateConfig c a).colorCount = c.colorCount) ∧
      (∀ v, a.colorCount = .val v → (updateConfig c a).colorCount = some v) ∧
      (a.minAlpha = .absent → (updateConfig c a).minAlpha = c.minAlpha) ∧
      (∀ v, a.minAlpha = .val v → (updateConfig c a).minAlpha = some v) ∧
      (a.excludeWhite = .absent → (updateConfig c a).excludeWhite = c.excludeWhite) ∧
      (∀ v, a.excludeWhite = .val v → (updateConfig c a).excludeWhite = some v) ∧
      (a.whiteThreshold = .absent → (updateConfig c a).whiteThreshold = c.whiteThreshold) ∧
      (∀ v, a.whiteThreshold = .val v → (updateConfig c a).whiteThreshold = some v) ∧
      (a.canvasSize = .absent → (updateConfig c a).canvasSize = c.canvasSize) ∧
      (∀ v, a.canvasSize = .val v → (updateConfig c a).canvasSize = some v)) ∧
    (∀ (c : StoredConfig) (a : ConfigArg), c.allDefined = true →
      a.noUndefined = true → (updateConfig c a).allDefined = true) ∧
    resetConfig.stored.allDefined = true ∧
    resetConfig =
      { quality := 10, colorCount := 5, minAlpha := 125,
        excludeWhite := true, whiteThreshold := 250, canvasSize := 256 } := by
  refine ⟨rfl, fun a => rfl,
    fun a v h => by simp [mkConfig, h, JSField.coalesce],
    fun a h => by simp [mkConfig, h, JSField.coalesce],
    fun a v h => by simp [mkConfig, h, JSField.coalesce],
    fun a h => by simp [mkConfig, h, JSField.coalesce],
    fun a v h => by simp [mkConfig, h, JSField.coalesce],
    fun a h => by simp [mkConfig, h, JSField.coalesce],
    fun a v h => by simp [mkConfig, h, JSField.coalesce],
    fun a h => by simp [mkConfig, h, JSField.coalesce],
    fun a v h => by simp [mkConfig, h, JSField.coalesce],
    fun a h => by simp [mkConfig, h, JSField.coalesce],
    fun a v h => by simp [mkConfig, h, JSField.coalesce],
    fun a h => by simp [mkConfig, h, JSField.coalesce],
    fun c a => ⟨fun h => by simp [updateConfig, h, JSField.spreadOnto],
      fun v h => by simp [updateConfig, h, JSField.spreadOnto],
      fun h => by simp [updateConfig, h, JSField.spreadOnto],
      fun v h => by simp [updateConfig, h, JSField.spreadOnto],
      fun h => by simp [updateConfig, h, JSField.spreadOnto],
      fun v h => by simp [updateConfig, h, JSField.spreadOnto],
      fun h => by simp [updateConfig, h, JSField.spreadOnto],
      fun v h => by simp [updateConfig, h, JSField.spreadOnto],
      fun h => by simp [updateConfig, h, JSField.spreadOnto],
      fun v h => by simp [updateConfig, h, JSField.spreadOnto],
      fun h => by simp [updateConfig, h, JSField.spreadOnto],
      fun v h => by simp [updateConfig, h, JSField.spreadOnto]⟩,
    ?_, rfl, rfl⟩
  intro c a hc ha
  simp only [StoredConfig.allDefined, Bool.and_eq_true] at hc ⊢
  simp only [ConfigArg.noUndefined, Bool.and_eq_true, Bool.not_eq_true'] at ha
  obtain ⟨⟨⟨⟨⟨hc1, hc2⟩, hc3⟩, hc4⟩, hc5⟩, hc6⟩ := hc
  obtain ⟨⟨⟨⟨⟨ha1, ha2⟩, ha3⟩, ha4⟩, ha5⟩, ha6⟩ := ha
  exact ⟨⟨⟨⟨⟨spreadOnto_isSome _ _ hc1 ha1, spreadOnto_isSome _ _ hc2 ha2⟩,
    spreadOnto_isSome _ _ hc3 ha3⟩, spreadOnto_isSome _ _ hc4 ha4⟩,
    spreadOnto_isSome _ _ hc5 ha5⟩, spreadOnto_isSome _ _ hc6 ha6⟩

/-! ### Concrete witnesses -/

/-- A concrete `color-convert` collaborator used for witnesses. -/
def libW : ConvertLib :=
  { rgbHex := fun _ => "FF0000", rgbHsl := fun _ => [0, 100, 50],
    rgbKeyword := fun _ => "red" }

/-- A concrete quantizer returning a one-color palette. -/
def quantW : QuantFn := fun _ _ => some [(10, 20, 30)]

/-- A concrete quantizer that fails to build a color map. -/
def quantNone : QuantFn := fun _ _ => none

/-- A one-pixel RGBA buffer. -/
def bufW : List Nat := [10, 20, 30, 255]

/-- The decoded pixel source for that buffer. -/
def decodedW : Except String (List Nat × Nat) := .ok (bufW, 1)

/-- The color result built from the witness palette entry. -/
def crW : ColorResult := createColorResult libW (10, 20, 30) none

/-- The palette result of the witness extraction. -/
def prW : PaletteResult :=
  { colors := [crW], dominant := crW, secondary := [], pixelCount := 10 }

/-- Witness for C1 at a concrete buffer and configuration. -/
theorem claim1_witness :
    createPixelArray cfgDefault bufW 1 =
      some ((visitedIndices 1 cfgDefault.quality).filterMap
        (samplePixel cfgDefault bufW)) ∧
    (passesFilter cfgDefault (some 254, some 254, some 254, some 255) = true ↔
      ¬ (255 : Nat) < cfgDefault.minAlpha ∧
        (cfgDefault.excludeWhite = true →
          ¬ (cfgDefault.whiteThreshold < 254 ∧ cfgDefault.whiteThreshold < 254 ∧
              cfgDefault.whiteThreshold < 254))) :=
  ⟨claim1_sampler_filter.1 cfgDefault bufW 1 (by decide),
   claim1_sampler_filter.2.1 cfgDefault 254 254 254 255⟩

/-- Witness for C2 at a concrete buffer and pixel count. -/
theorem claim2_witness :
    createPixelArray cfgDefault bufW 25 =
      some ((visitedIndices 25 cfgDefault.quality).filterMap
        (samplePixel cfgDefault bufW)) ∧
    (visitedIndices 25 cfgDefault.quality).length =
      (25 + cfgDefault.quality - 1) / cfgDefault.quality := by
  have h := claim2_visit_count cfgDefault bufW 25 (by decide)
  exact ⟨h.1, h.2.1⟩

/-- Witness for C3 at concrete inputs. -/
theorem claim3_witness :
    createPixelArray cfgDefault [] 0 = some [] ∧
    quantizeColors quantW cfgDefault [] = none ∧
    getProminentColors quantNone libW cfgDefault (.ok (bufW, 1)) =
      some (.ok []) :=
  ⟨claim3_empty_path.1 cfgDefault, claim3_empty_path.2.1 quantW cfgDefault,
   claim3_empty_path.2.2.2 quantNone libW cfgDefault bufW 1
     [(some 10, some 20, some 30)] (by decide) (Or.inl (by decide))⟩

/-- Witness for C4: on the witness source the failing quantizer yields an
empty color list, so `getPalette` and `getDominantColor` fail with the
"no colors found" error. -/
theorem claim4_witness :
    getPalette quantNone libW cfgDefault decodedW =
      some (.error ("Failed to get palette: " ++ "No colors found in image")) ∧
    getDominantColor quantNone libW cfgDefault decodedW =
      some (.error ("Failed to get dominant color: " ++ "No colors found in image")) := by
  have h := (claim4_empty_result_error quantNone libW cfgDefault decodedW).1
    rfl
  exact ⟨h.1, h.2.1⟩

/-- Witness for C5 at the concrete witness extraction. -/
theorem claim5_witness :
    ∃ c rest, prW.colors = c :: rest ∧ prW.dominant = c ∧
      prW.secondary = rest ∧
      prW.pixelCount = prW.colors.length * cfgDefault.quality ∧
      getProminentColors quantW libW cfgDefault decodedW =
        some (.ok prW.colors) :=
  claim5_palette_shape quantW libW cfgDefault decodedW prW rfl

/-- Witness for C6 (amended) at concrete configurations and updates. -/
theorem claim6_witness :
    (mkConfig { emptyArg with quality := JSField.val 3 }).quality = 3 ∧
    (updateConfig resetConfig.stored
        { emptyArg with colorCount := JSField.val 7 }).colorCount = some 7 ∧
    (updateConfig resetConfig.stored
        { emptyArg with colorCount := JSField.val 7 }).allDefined = true := by
  obtain ⟨h1, h2, h3, h4, h5, h6, h7, h8, h9, h10, h11, h12, h13, h14,
    h15, h16, h17, h18⟩ := claim6_config_amended
  exact ⟨h3 _ 3 rfl,
    (h15 resetConfig.stored { emptyArg with colorCount := JSField.val 7 }).2.2.2.1
      7 rfl,
    h16 resetConfig.stored { emptyArg with colorCount := JSField.val 7 }
      (by decide) (by decide)⟩

/-- Witness for C7 at a concrete triple. -/
theorem claim7_witness :
    hexToRgb (rgbToHex 17 34 51) = some { r := 17, g := 34, b := 51 } :=
  claim7_hex_roundtrip.1 17 34 51 (by decide) (by decide) (by decide)

/-- Witness for C8 at a concrete accepted input. -/
theorem claim8_witness :
    ∃ cs : List Char, cs.length = 6 ∧ (∀ c ∈ cs, isHexDigitCI c = true) ∧
      (("#0a0b0c" : String).data = cs ∨
        ("#0a0b0c" : String).data = '#' :: cs) :=
  (claim8_hexToRgb_rejects.2.2.2 "#0a0b0c").mp (by decide)

/-- Witness for C9 at the concrete witness extraction. -/
theorem claim9_witness :
    ∃ stats, getColorStatistics quantW libW cfgDefault decodedW =
        some (.ok stats) ∧
      stats.totalColors = prW.colors.length ∧
      1 ≤ prW.colors.length ∧
      stats.averageBrightness =
        ((prW.colors.map (fun c =>
            ((c.rgb.1 : ℚ) + (c.rgb.2.1 : ℚ) + (c.rgb.2.2 : ℚ)) / 3)).sum) /
          (prW.colors.length : ℚ) ∧
      ((prW.colors.map (fun c => c.formats.hex)).Nodup →
        ∀ i (hi : i < prW.colors.length),
          stats.colorDistribution ((prW.colors.get ⟨i, hi⟩).formats.hex) =
            some (((prW.colors.length : ℚ) - (i : ℚ)) /
              (prW.colors.length : ℚ))) :=
  claim9_statistics quantW libW cfgDefault decodedW prW rfl

/-- Witness for C10: the default configuration terminates on the witness
buffer, and a zero-quality configuration loops forever on it. -/
theorem claim10_witness :
    (createPixelArray cfgDefault bufW 1).isSome = true ∧
    cpaLoop { cfgDefault with quality := 0 } bufW 1 5 0 = none :=
  ⟨claim10_sampler_termination.1 cfgDefault bufW 1 (by decide),
   claim10_sampler_termination.2 { cfgDefault with quality := 0 } bufW 1
     rfl (by decide) 5⟩

end RNColorThief
